import Mathlib

/-!
Verification of the PygameModelling25 repository.

The repository ships a single notebook, `InstallAndTest.ipynb`, which
(a) installs the workshop package in editable mode and (b) runs a
smoke test: it imports `Simulation` from `pygmodw25.sims`, constructs
`Simulation(N=15, T=150)` and calls `start()`.  The notebook records
the outputs of both code cells.

We embed the notebook itself as data (cells, source lines, recorded
outputs, in file order) and embed the smoke-test driver cell as a small
statement list with an operational semantics.  The `Simulation` engine
is not part of the supplied sources (only this notebook, its caller,
is), so its behaviour is modelled from the spec, as marked on each
such definition.
-/

/-- A Jupyter cell is either narration or executable code. -/
inductive CellType where
  | markdown
  | code
deriving DecidableEq

/-- One recorded output of a code cell: either a stream of text lines
written to standard output, or an error record carrying the exception
name, in the order the notebook stores them. -/
inductive CellOutput where
  | stream (lines : List String)
  | errorOut (ename : String)
deriving DecidableEq

/-- A notebook cell: identifier, type, source lines and recorded outputs. -/
structure NotebookCell where
  cellId : String
  cellType : CellType
  sourceLines : List String
  outputs : List CellOutput
deriving DecidableEq

/-- The opening markdown cell of `InstallAndTest.ipynb` (narration about
installing the package with pip in editable mode). -/
def installNarrationCell : NotebookCell :=
  { cellId := "09cdc0c9"
    cellType := .markdown
    sourceLines :=
      [ "# Installation",
        "First, we will have to install all the dependencies of the code base and the code base used throughout the workshop as well. This is structured in a python package that you have just cloned from GitHub. `setup.py` includes all the dependencies that we can install with pip. We use the `-e`flag so that we can also change the code inside the package and the changes will be immediately visible when we use the code." ]
    outputs := [] }

/-- The install cell of `InstallAndTest.ipynb`: runs `%pip install -e .`.
Its recorded stream output is embedded below; the repeated
"Requirement already satisfied: ..." dependency lines, which carry
per-machine site-packages paths, are not needed by any claim and are
kept out of the embedded stream, which otherwise follows the recorded
order. -/
def installCell : NotebookCell :=
  { cellId := "20039ccd"
    cellType := .code
    sourceLines := ["%pip install -e ."]
    outputs :=
      [ .stream
          [ "Obtaining file:///C:/Users/David/Desktop/PygameModelling25",
            "Installing collected packages: PyGame-Modelling-Workshop-2025",
            "  Attempting uninstall: PyGame-Modelling-Workshop-2025",
            "    Found existing installation: PyGame-Modelling-Workshop-2025 1.0.0",
            "    Uninstalling PyGame-Modelling-Workshop-2025-1.0.0:",
            "      Successfully uninstalled PyGame-Modelling-Workshop-2025-1.0.0",
            "  Running setup.py develop for PyGame-Modelling-Workshop-2025",
            "Successfully installed PyGame-Modelling-Workshop-2025-1.0.0" ] ] }

/-- The markdown cell introducing the smoke test; its narration names the
installed package as `pygmodw23`. -/
def testNarrationCell : NotebookCell :=
  { cellId := "efdb2980"
    cellType := .markdown
    sourceLines :=
      [ "# Test the Installation",
        "to test the installation, we can start using the installed python package `pygmodw23` and start a short simulation of randomly moving agents." ]
    outputs := [] }

/-- The smoke-test driver cell of `InstallAndTest.ipynb`: imports
`Simulation` from `pygmodw25.sims`, constructs it with `N=15, T=150`
and calls `start()`.  Its recorded outputs are the three lifecycle
lines on the standard-output stream followed by a `SystemExit` error
record. -/
def testCell : NotebookCell :=
  { cellId := "ed4fe3ed"
    cellType := .code
    sourceLines :=
      [ "from pygmodw25.sims import Simulation",
        "",
        "# Creating a short test simulation instance with 15 agents and 150 timestep simulation time",
        "test_simulation = Simulation(N=15, T=150)",
        "",
        "# Start the simulation",
        "test_simulation.start()" ]
    outputs :=
      [ .stream
          [ "Running simulation start method!",
            "Starting main simulation loop!",
            "Bye bye!" ],
        .errorOut "SystemExit" ] }

/-- The closing markdown cell: tells the reader they are ready if they saw
the simulation window and the agents moving around, and that the pygame
window may open in the background. -/
def closingNarrationCell : NotebookCell :=
  { cellId := "5ecd312d"
    cellType := .markdown
    sourceLines :=
      [ "In case you have seen the simulation window and the agents moving around, you are ready for the workshop! (It can happen that the pygame window will not pop up but will open in the background.)" ]
    outputs := [] }

/-- All cells of `InstallAndTest.ipynb`, in file order. -/
def notebookCells : List NotebookCell :=
  [ installNarrationCell, installCell, testNarrationCell, testCell,
    closingNarrationCell ]

/-- The lines a code cell recorded on its standard-output stream,
concatenated across its stream outputs in order. -/
def NotebookCell.streamLines (c : NotebookCell) : List String :=
  c.outputs.foldr
    (fun o acc =>
      match o with
      | .stream ls => ls ++ acc
      | .errorOut _ => acc)
    []

/-- Whether the first character list is an initial segment of the
second. -/
def charsStartWith : List Char → List Char → Bool
  | [], _ => true
  | _ :: _, [] => false
  | a :: as, b :: bs => a == b && charsStartWith as bs

/-- Whether the first character list occurs contiguously inside the
second. -/
def charsContain (needle : List Char) : List Char → Bool
  | [] => needle.isEmpty
  | c :: cs => charsStartWith needle (c :: cs) || charsContain needle cs

/-- Whether a string occurs as a substring of another, computed on the
underlying character lists. -/
def occursIn (needle haystack : String) : Bool :=
  charsContain needle.data haystack.data

/-- Whether any source line of a cell contains a given fragment. -/
def NotebookCell.mentions (c : NotebookCell) (fragment : String) : Bool :=
  c.sourceLines.any (fun l => occursIn fragment l)

/-- The configuration of a simulation instance: agent count `N` and total
timestep count `T`, both plain integers. -/
structure Simulation where
  N : Int
  T : Int
deriving DecidableEq

/-- Modelled from the spec: the external constructor of the missing
`pygmodw25.sims` engine takes the two named integer parameters `N`
(agent count) and `T` (timestep count), "both plain integers with no
stated constraints, validation, or invariants in the given material";
it therefore never rejects an input pair. -/
def mkSimulation (n t : Int) : Except String Simulation :=
  .ok { N := n, T := t }

/-- An observable event of the smoke-test run: constructing the
simulation object, printing a line to standard output, opening the
graphical window, or terminating the host process. -/
inductive Event where
  | constructSim (n t : Int)
  | printLine (s : String)
  | openWindow
  | exitProcess
deriving DecidableEq

/-- The three lifecycle lines the run prints to standard output, in
order. -/
def lifecycleLines : List String :=
  [ "Running simulation start method!",
    "Starting main simulation loop!",
    "Bye bye!" ]

/-- Modelled from the spec: the zero-argument, no-return-value `start()`
operation of the missing `pygmodw25.sims` engine prints the three
lifecycle lines in order to standard output, opens a graphical window
(placed here after the first line, when the start method is under way;
the spec fixes only that the window opens during the run), runs the
main loop to completion and then terminates the host process. -/
def Simulation.startEvents (s : Simulation) : List Event :=
  [ .printLine "Running simulation start method!",
    .openWindow,
    .printLine "Starting main simulation loop!",
    .printLine "Bye bye!",
    .exitProcess ]

/-- The possible ways a call to `start()` can end, as seen by its caller. -/
inductive Outcome where
  | returned
  | raisedSystemExit
deriving DecidableEq

/-- Modelled from the spec: `start()` never returns normally to its
caller; its run ends in a SystemExit-style process termination
("runs to completion and exits the process"). -/
def Simulation.startOutcome (s : Simulation) : Outcome :=
  .raisedSystemExit

/-- A statement of the smoke-test driver cell: a from-import, an
assignment of a constructor call with named integer arguments, or a
zero-or-more argument method call on a variable. -/
inductive Stmt where
  | importFrom (module name : String)
  | assignConstruct (target cls : String) (kwargs : List (String × Int))
  | callMethod (target method : String) (args : List Int)

/-- The smoke-test driver of cell `ed4fe3ed`, statement by statement:
bring in `Simulation` from `pygmodw25.sims`, bind
`test_simulation = Simulation(N=15, T=150)`, then call
`test_simulation.start()`. -/
def driverStmts : List Stmt :=
  [ .importFrom "pygmodw25.sims" "Simulation",
    .assignConstruct "test_simulation" "Simulation" [("N", 15), ("T", 150)],
    .callMethod "test_simulation" "start" [] ]

/-- Look up a named argument in a keyword-argument list. -/
def findKwarg (kwargs : List (String × Int)) (key : String) : Option Int :=
  (kwargs.find? (fun p => p.fst == key)).map Prod.snd

/-- The result of running the driver: either every statement finished
normally, or an exception left the driver uncaught; both carry the
events emitted up to that point, in order. -/
inductive ExecResult where
  | finished (events : List Event)
  | uncaught (events : List Event) (ename : String)
deriving DecidableEq

/-- Run the driver statements in order.  The driver defines no handler,
so an exception ends the run as `uncaught`.  A constructor call builds
the simulation via `mkSimulation` from the named arguments `N` and `T`;
a `start` call on the bound simulation emits its events and ends with
the engine's SystemExit-style termination, which nothing in the driver
catches. -/
def runStmts (sim? : Option Simulation) (acc : List Event) :
    List Stmt → ExecResult
  | [] => .finished acc
  | stmt :: rest =>
    match stmt with
    | .importFrom _ _ => runStmts sim? acc rest
    | .assignConstruct _ cls kwargs =>
      match cls, findKwarg kwargs "N", findKwarg kwargs "T" with
      | "Simulation", some n, some t =>
        match mkSimulation n t with
        | .ok sim => runStmts (some sim) (acc ++ [.constructSim n t]) rest
        | .error e => .uncaught acc e
      | _, _, _ => .uncaught acc "TypeError"
    | .callMethod _ m args =>
      match sim?, m, args with
      | some sim, "start", [] =>
        match sim.startOutcome with
        | .returned => runStmts sim? (acc ++ sim.startEvents) rest
        | .raisedSystemExit => .uncaught (acc ++ sim.startEvents) "SystemExit"
      | _, _, _ => .uncaught acc "AttributeError"

/-- The smoke-test run of the driver cell. -/
def driverRun : ExecResult :=
  runStmts none [] driverStmts

/-- The events the smoke-test run emitted, in order. -/
def driverEvents : List Event :=
  match driverRun with
  | .finished es => es
  | .uncaught es _ => es

/-- The lines the run printed to standard output, in order. -/
def printedLines (events : List Event) : List String :=
  events.filterMap
    (fun e =>
      match e with
      | .printLine s => some s
      | _ => none)

/-- Whether a statement is the construction of the simulation object. -/
def Stmt.isConstruct : Stmt → Bool
  | .assignConstruct _ _ _ => true
  | _ => false

/-- Whether a statement is the `start()` method call. -/
def Stmt.isStartCall : Stmt → Bool
  | .callMethod _ m _ => m == "start"
  | _ => false

/-- The keyword-argument lists of all constructor calls in a statement
list. -/
def constructorKwargLists (stmts : List Stmt) : List (List (String × Int)) :=
  stmts.filterMap
    (fun s =>
      match s with
      | .assignConstruct _ _ kwargs => some kwargs
      | _ => none)

/-- The (method name, positional arguments) pairs of all method calls in
a statement list. -/
def methodCalls (stmts : List Stmt) : List (String × List Int) :=
  stmts.filterMap
    (fun s =>
      match s with
      | .callMethod _ m args => some (m, args)
      | _ => none)

/-- Whether a cell's source contains a Python error-handling construct:
a `try:` block, an `except` clause, or a `finally:` clause. -/
def NotebookCell.hasErrorHandling (c : NotebookCell) : Bool :=
  c.mentions "try:" || c.mentions "except" || c.mentions "finally:"

/-- The modules named by the from-import statements of a statement
list. -/
def importedModules (stmts : List Stmt) : List String :=
  stmts.filterMap
    (fun s =>
      match s with
      | .importFrom m _ => some m
      | _ => none)

/-- The position of a cell with the given identifier in the notebook,
in file order. -/
def cellIndex (cid : String) : Option Nat :=
  notebookCells.findIdx? (fun c => c.cellId == cid)

/-- Claim C1: running the smoke-test driver with `Simulation(N=15, T=150)`
followed by `start()` prints exactly the three lifecycle lines
"Running simulation start method!", "Starting main simulation loop!",
"Bye bye!", in this order, and the process-termination event is the
last event of the run; the notebook's recorded standard-output stream
for the driver cell is exactly these three lines. -/
theorem claim_C1_three_lifecycle_lines_then_termination :
    printedLines driverEvents = lifecycleLines ∧
    driverEvents.getLast? = some Event.exitProcess ∧
    testCell.streamLines = lifecycleLines := by
  decide

/-- Claim C2: for the smoke-test run (N=15, T=150) the zero-argument
`start()` call does not return normally: the driver run does not finish
but ends with an uncaught SystemExit-style process termination, and the
modelled `start` outcome on the constructed simulation is
`raisedSystemExit`, not `returned`. -/
theorem claim_C2_start_terminates_process :
    driverRun = ExecResult.uncaught driverEvents "SystemExit" ∧
    (∀ es, driverRun ≠ ExecResult.finished es) ∧
    Simulation.startOutcome { N := 15, T := 150 } = Outcome.raisedSystemExit := by
  refine ⟨by decide, ?_, by decide⟩
  intro es h
  simp [driverRun, driverStmts, runStmts, mkSimulation, findKwarg,
    Simulation.startOutcome] at h

/-- Claim C3: the API boundary the driver consumes has exactly this
shape: the only constructor call passes exactly the two named integer
arguments `N` and `T` (with values 15 and 150), and the only method
call is `start` with an empty argument list. -/
theorem claim_C3_api_boundary_shape :
    constructorKwargLists driverStmts = [[("N", 15), ("T", 150)]] ∧
    (constructorKwargLists driverStmts).map (fun k => k.map Prod.fst) =
      [["N", "T"]] ∧
    methodCalls driverStmts = [("start", [])] := by
  decide

/-- Claim C4: the configuration pair is unconstrained at this interface:
for every pair of plain integers `n` and `t`, constructing the
simulation succeeds with no validation or invariant check rejecting
it. -/
theorem claim_C4_construction_unconstrained (n t : Int) :
    mkSimulation n t = Except.ok { N := n, T := t } :=
  rfl

/-- Claim C5: the driver performs its two steps in a fixed order: the
construction statement precedes the `start()` call statement, and in
the emitted trace the construction event is the very first event,
before any output of `start()`. -/
theorem claim_C5_construct_before_start :
    driverStmts.findIdx Stmt.isConstruct < driverStmts.findIdx Stmt.isStartCall ∧
    driverStmts.findIdx Stmt.isConstruct = 1 ∧
    driverStmts.findIdx Stmt.isStartCall = 2 ∧
    driverEvents.head? = some (Event.constructSim 15 150) := by
  decide

/-- Claim C6: the driver defines no error handling: its source contains
no `try:`, `except` or `finally:` construct, and consequently the
SystemExit-style termination raised inside `start()` propagates out of
the driver uncaught. -/
theorem claim_C6_no_error_handling_uncaught_exit :
    testCell.hasErrorHandling = false ∧
    driverRun = ExecResult.uncaught driverEvents "SystemExit" := by
  decide

/-- Claim C7: the process never terminates before the run is complete:
the trace contains exactly one process-termination event, it is the
last event, and all three lifecycle lines (ending with "Bye bye!") are
printed before it; the notebook likewise records the full three-line
stream before the SystemExit error record. -/
theorem claim_C7_termination_only_at_end :
    driverEvents.count Event.exitProcess = 1 ∧
    driverEvents.getLast? = some Event.exitProcess ∧
    printedLines driverEvents.dropLast = lifecycleLines ∧
    testCell.outputs =
      [CellOutput.stream lifecycleLines, CellOutput.errorOut "SystemExit"] := by
  decide

/-- Claim C8: calling `start()` opens a graphical window as a side
effect of the run (possibly in the background), in which the agents
are visibly moving: the window-opening event occurs in the smoke-test
trace, and the notebook narration describes the simulation window with
the agents moving around and notes it may open in the background. -/
theorem claim_C8_opens_window_with_moving_agents :
    Event.openWindow ∈ driverEvents ∧
    closingNarrationCell.mentions "simulation window" = true ∧
    closingNarrationCell.mentions "the agents moving around" = true ∧
    closingNarrationCell.mentions "open in the background" = true := by
  decide

/-- Claim C9: the `Simulation` class the driver actually uses is
imported from the module `pygmodw25.sims`, while the notebook narration
names the installed package `pygmodw23`: the two package names differ,
and the narration nowhere mentions the name actually imported. -/
theorem claim_C9_package_name_mismatch :
    importedModules driverStmts = ["pygmodw25.sims"] ∧
    testCell.mentions "from pygmodw25.sims import Simulation" = true ∧
    testNarrationCell.mentions "pygmodw23" = true ∧
    testNarrationCell.mentions "pygmodw25" = false ∧
    ("pygmodw23" : String) ≠ "pygmodw25" := by
  decide

/-- Claim C10: the editable install invocation `%pip install -e .`
completes successfully, uninstalling and reinstalling the package
PyGame-Modelling-Workshop-2025 at version 1.0.0 — its recorded output
ends in the success line — and the install cell precedes the smoke-test
cell in the notebook. -/
theorem claim_C10_editable_install_succeeds_first :
    installCell.sourceLines = ["%pip install -e ."] ∧
    "Successfully installed PyGame-Modelling-Workshop-2025-1.0.0" ∈
      installCell.streamLines ∧
    "      Successfully uninstalled PyGame-Modelling-Workshop-2025-1.0.0" ∈
      installCell.streamLines ∧
    installCell.streamLines.getLast? =
      some "Successfully installed PyGame-Modelling-Workshop-2025-1.0.0" ∧
    cellIndex "20039ccd" = some 1 ∧
    cellIndex "ed4fe3ed" = some 3 := by
  decide
